import Mathlib

/-!
Verification development for the elasticsearch-operation-automation repository.

The repository has two orchestrators: `src/es_automation.py` (YAML based) and
`elasticsearch-ops/executor.py` (properties based), a client wrapper
`src/es_client.py` with a bounded retry loop, and pure validators in
`src/validators.py`.  This file gives a shallow embedding of the parts those
claims depend on: remote responses are abstracted as per-attempt outcome
functions, the cluster's index/template population as a `ClusterState`, and
every network request the code issues is recorded as an `ESCall` value.
Wall-clock timestamps and log output are dropped; `time.sleep` is recorded as
the requested duration.
-/

/-- JSON-like values, the shape of Elasticsearch request/response bodies.
`jnull` stands for Python's `None`. -/
inductive JVal where
  | jnull
  | jbool (b : Bool)
  | jint (n : Int)
  | jstr (s : String)
  | jarr (xs : List JVal)
  | jobj (fields : List (String × JVal))

/-- One network request issued to the Elasticsearch HTTP client. -/
inductive ESCall where
  | indicesExists (index : String)
  | indicesCreate (index : String) (body : Option (List (String × JVal)))
  | indicesDelete (index : String)
  | putSettings (index : String) (body : List (String × JVal))
  | existsIndexTemplate (name : String)
  | putIndexTemplate (name : String) (body : List (String × JVal))
  | deleteIndexTemplate (name : String)
  | indexDoc (index : String) (id : Option String) (document : List (String × JVal))
  | deleteDoc (index : String) (id : String)

/-- Which indices and index templates currently exist on the cluster, as
reported by the `exists` / `exists_index_template` probes. -/
structure ClusterState where
  indices : List String
  templates : List String

/-! ## Retry helper: `ElasticsearchClient._retry_operation` (es_client.py 101-145)

The wrapped operation is abstracted as a map from attempt number to outcome.
`result = none` models the Python fall-through `return None` that happens only
when `max_retries = 0` (the loop body never runs); `calls` counts invocations
of the wrapped operation and `sleeps` lists each `time.sleep` duration. -/

structure RetryTrace (ε α : Type) where
  result : Option (Except ε α)
  calls : Nat
  sleeps : List Nat

/-- The retry loop body, at loop variable `attempt` with
`remaining = max_retries - attempt` iterations left.  Mirrors
`for attempt in range(self.max_retries)`: on success return the result; on an
exception, re-raise when `attempt + 1 >= max_retries` (i.e. `remaining = 1`),
otherwise sleep `delay` and continue with the next attempt. -/
def retryFrom (att : Nat → Except ε α) (delay : Nat) : Nat → Nat → RetryTrace ε α
  | _, 0 => ⟨none, 0, []⟩
  | k, r + 1 =>
    match att k with
    | Except.ok a => ⟨some (Except.ok a), 1, []⟩
    | Except.error e =>
      if r = 0 then ⟨some (Except.error e), 1, []⟩
      else
        let rest := retryFrom att delay (k + 1) r
        ⟨rest.result, rest.calls + 1, delay :: rest.sleeps⟩

/-- `ElasticsearchClient._retry_operation(operation)` with `self.max_retries = m`
and `self.retry_delay = delay`. -/
def retry_operation (m delay : Nat) (att : Nat → Except ε α) : RetryTrace ε α :=
  retryFrom att delay 0 m

/-- Constructor default `max_retries=3` (es_client.py line 40). -/
def defaultMaxRetries : Nat := 3

/-- Constructor default `retry_delay=2` (es_client.py line 40). -/
def defaultRetryDelay : Nat := 2

/-! ## Client delete operations (es_client.py)

Each client method returns the outcome the caller sees together with the list
of network calls it issued.  The per-attempt outcome of the wrapped primitive
is a parameter (`delAtt`); a `none` retry result (only possible with
`max_retries = 0`) is Python's implicit `None`, i.e. a non-raising return. -/

/-- The synthetic response of `delete_index` for an absent index
(es_client.py line 217). -/
def notFoundIndexResult : JVal :=
  JVal.jobj [("acknowledged", JVal.jbool true), ("status", JVal.jstr "index_not_found")]

/-- The synthetic response of `delete_index_template` for an absent template
(es_client.py line 305). -/
def notFoundTemplateResult : JVal :=
  JVal.jobj [("acknowledged", JVal.jbool true), ("status", JVal.jstr "template_not_found")]

/-- `ElasticsearchClient.delete_index` (es_client.py 197-229): probe existence;
if absent, return the synthetic acknowledged/not-found dict without issuing the
delete; otherwise run the delete through the retry helper. -/
def delete_index (cl : ClusterState) (delAtt : Nat → Except String JVal)
    (m d : Nat) (name : String) : Except String JVal × List ESCall :=
  if cl.indices.contains name then
    let t := retry_operation m d delAtt
    (t.result.getD (Except.ok JVal.jnull),
     ESCall.indicesExists name :: List.replicate t.calls (ESCall.indicesDelete name))
  else
    (Except.ok notFoundIndexResult, [ESCall.indicesExists name])

/-- `ElasticsearchClient.delete_index_template` (es_client.py 289-316). -/
def delete_index_template (cl : ClusterState) (delAtt : Nat → Except String JVal)
    (m d : Nat) (name : String) : Except String JVal × List ESCall :=
  if cl.templates.contains name then
    let t := retry_operation m d delAtt
    (t.result.getD (Except.ok JVal.jnull),
     ESCall.existsIndexTemplate name :: List.replicate t.calls (ESCall.deleteIndexTemplate name))
  else
    (Except.ok notFoundTemplateResult, [ESCall.existsIndexTemplate name])

/-- `ElasticsearchClient.delete_document` (es_client.py 348-371): no existence
probe, the `es.delete` call goes straight through the retry helper. -/
def delete_document (delAtt : Nat → Except String JVal) (m d : Nat)
    (index docId : String) : Except String JVal × List ESCall :=
  let t := retry_operation m d delAtt
  (t.result.getD (Except.ok JVal.jnull),
   List.replicate t.calls (ESCall.deleteDoc index docId))

/-! ## Validators (validators.py)

`validate_index_name` (validators.py 15-83).  Python's per-character checks
(`char.isalpha() and char.isupper()`) are modelled with `Char.isAlpha` /
`Char.isUpper`, the ASCII fragment of Python's Unicode classification.
The `isinstance(index_name, str)` check is subsumed by the Lean type. -/

/-- The forbidden-character list (validators.py line 73), in source order. -/
def invalidIndexChars : List Char :=
  ['\\', '/', '*', '?', '"', '<', '>', '|', ' ', ',', '#']

/-- The `for char in invalid_chars: if char in index_name` loop: first listed
forbidden character occurring in the name, if any. -/
def firstInvalidChar (s : String) : List Char → Option Char
  | [] => none
  | c :: rest => if c ∈ s.data then some c else firstInvalidChar s rest

/-- Error message `f"Index name cannot start with '{index_name[0]}'"`. -/
def msgCannotStart (c : Char) : String :=
  "Index name cannot start with \x27" ++ String.singleton c ++ "\x27"

/-- Error message `f"Index name cannot contain '{char}'"`. -/
def msgCannotContain (c : Char) : String :=
  "Index name cannot contain \x27" ++ String.singleton c ++ "\x27"

/-- `validate_index_name` (validators.py 15-83), with `raise ValueError(msg)`
embedded as `Except.error msg`. -/
def validate_index_name (s : String) : Except String Bool :=
  if s.length = 0 then
    Except.error "Index name cannot be empty"
  else if s.utf8ByteSize > 255 then
    Except.error "Index name must be 255 bytes or less"
  else if s = "." ∨ s = ".." then
    Except.error "Index name cannot be \x27.\x27 or \x27..\x27"
  else if s.front = '-' ∨ s.front = '_' ∨ s.front = '+' then
    Except.error (msgCannotStart s.front)
  else if s.data.any (fun c => c.isAlpha && c.isUpper) then
    Except.error "Index name must be lowercase"
  else
    match firstInvalidChar s invalidIndexChars with
    | some c => Except.error (msgCannotContain c)
    | none => Except.ok true

/-- The validity predicate of the claim: the conjunction of the documented
index-name rules. -/
structure ValidIndexName (s : String) : Prop where
  nonempty : s.length ≠ 0
  byteSize : s.utf8ByteSize ≤ 255
  notDot : s ≠ "."
  notDotDot : s ≠ ".."
  goodStart : ¬(s.front = '-' ∨ s.front = '_' ∨ s.front = '+')
  lower : s.data.any (fun c => c.isAlpha && c.isUpper) = false
  noForbidden : ∀ c ∈ invalidIndexChars, c ∉ s.data

/-- The messages of all rules the string violates; an error raised by
`validate_index_name` must name one of them. -/
def violatedMessages (s : String) : List String :=
  (if s.length = 0 then ["Index name cannot be empty"] else []) ++
  (if s.utf8ByteSize > 255 then ["Index name must be 255 bytes or less"] else []) ++
  (if s = "." ∨ s = ".." then ["Index name cannot be \x27.\x27 or \x27..\x27"] else []) ++
  (if s.front = '-' ∨ s.front = '_' ∨ s.front = '+' then [msgCannotStart s.front] else []) ++
  (if s.data.any (fun c => c.isAlpha && c.isUpper) then ["Index name must be lowercase"] else []) ++
  (invalidIndexChars.filter (fun c => c ∈ s.data)).map msgCannotContain

/-! ## Operation dispatcher: `ElasticsearchAutomation` (es_automation.py)

Loaded operations always carry an `operation` tag (files without one fail
validation in `ConfigParser.load_operation_files` and are skipped) and the
`_file_name` metadata added by the loader.  The effect of
`_execute_operation` on the live cluster is abstracted as a function from the
operation to the outcome the handler produces plus the network calls it
issued. -/

/-- A loaded operation definition (the fields the dispatcher loop reads). -/
structure Operation where
  operation : String
  fileName : String

/-- A per-operation execution record appended to `self.results`
(es_automation.py 190-196 and 208-214); wall-clock timestamps are dropped. -/
structure ExecRecord where
  operation : String
  sourceFile : String
  status : String
  result : Option JVal
  error : Option String

/-- The record appended on success. -/
def success_record (op : Operation) (r : JVal) : ExecRecord :=
  ⟨op.operation, op.fileName, "success", some r, none⟩

/-- The record appended on failure. -/
def failure_record (op : Operation) (e : String) : ExecRecord :=
  ⟨op.operation, op.fileName, "failed", none, some e⟩

/-- The mutable state of one run: the `self.stats` counters, `self.results`,
plus two observables of the embedding — every network call issued so far and
the number of loop iterations performed. -/
structure RunState where
  successful : Nat
  failed : Nat
  skipped : Nat
  total : Nat
  results : List ExecRecord
  calls : List ESCall
  executed : Nat

/-- `ElasticsearchAutomation._simulate_operation` (es_automation.py 277-301):
the synthetic dry-run result, produced without any client call. -/
def simulate_operation (op : Operation) : JVal :=
  JVal.jobj [("acknowledged", JVal.jbool true), ("dry_run", JVal.jbool true),
             ("operation", JVal.jstr op.operation)]

/-- The `for i, operation in enumerate(self.operations)` loop of
`execute_operations` (es_automation.py 167-229): in dry-run mode route to
`_simulate_operation` (which cannot fail), otherwise to `_execute_operation`
(abstracted as `e`); count and record the outcome; on failure stop iff
`stop_on_error`. -/
def exec_loop (dryRun stopOnError : Bool)
    (e : Operation → Except String JVal × List ESCall) :
    List Operation → RunState → RunState
  | [], st => st
  | op :: rest, st =>
    let st1 : RunState := { st with executed := st.executed + 1 }
    if dryRun then
      exec_loop dryRun stopOnError e rest
        { st1 with successful := st1.successful + 1,
                   results := st1.results ++ [success_record op (simulate_operation op)] }
    else
      match e op with
      | (Except.ok r, cs) =>
        exec_loop dryRun stopOnError e rest
          { st1 with successful := st1.successful + 1,
                     results := st1.results ++ [success_record op r],
                     calls := st1.calls ++ cs }
      | (Except.error err, cs) =>
        let st2 : RunState := { st1 with failed := st1.failed + 1,
                                         results := st1.results ++ [failure_record op err],
                                         calls := st1.calls ++ cs }
        if stopOnError then st2 else exec_loop dryRun stopOnError e rest st2

/-- The state after `load_configuration` (es_automation.py 116-119): all
counters zero except `total = len(self.operations)`, empty results. -/
def initState (n : Nat) : RunState :=
  ⟨0, 0, 0, n, [], [], 0⟩

/-- `ElasticsearchAutomation.execute_operations` (es_automation.py 151-229),
started from the post-`load_configuration` state. -/
def execute_operations (dryRun stopOnError : Bool)
    (e : Operation → Except String JVal × List ESCall)
    (ops : List Operation) : RunState :=
  exec_loop dryRun stopOnError e ops (initState ops.length)

/-- The statistics block of the report. -/
structure Stats where
  total : Nat
  successful : Nat
  failed : Nat
  skipped : Nat

/-- Project a run state onto its `self.stats` dictionary. -/
def RunState.stats (st : RunState) : Stats :=
  ⟨st.total, st.successful, st.failed, st.skipped⟩

/-- The report saved by `generate_report` (es_automation.py 461-472);
the timestamp field is dropped. -/
structure Report where
  environment : String
  statistics : Stats
  results : List ExecRecord

/-- `ElasticsearchAutomation.generate_report` (es_automation.py 422-472). -/
def generate_report (env : String) (st : RunState) : Report :=
  ⟨env, st.stats, st.results⟩

/-! ## Dispatcher handlers composed with the client (es_automation.py 326-420)

`_delete_index` and `_delete_document` validate the index name before calling
the client; `_delete_index_template` calls the client directly.  The client is
constructed with the default retry settings (`ElasticsearchClient(es_config)`,
es_automation.py line 147). -/

/-- `ElasticsearchAutomation._delete_index` (es_automation.py 326-335). -/
def dispatch_delete_index (cl : ClusterState) (delAtt : Nat → Except String JVal)
    (name : String) : Except String JVal × List ESCall :=
  match validate_index_name name with
  | Except.error msg => (Except.error msg, [])
  | Except.ok _ => delete_index cl delAtt defaultMaxRetries defaultRetryDelay name

/-- `ElasticsearchAutomation._delete_index_template` (es_automation.py 386-392). -/
def dispatch_delete_index_template (cl : ClusterState)
    (delAtt : Nat → Except String JVal) (name : String) :
    Except String JVal × List ESCall :=
  delete_index_template cl delAtt defaultMaxRetries defaultRetryDelay name

/-- `ElasticsearchAutomation._delete_document` (es_automation.py 410-420). -/
def dispatch_delete_document (delAtt : Nat → Except String JVal)
    (index docId : String) : Except String JVal × List ESCall :=
  match validate_index_name index with
  | Except.error msg => (Except.error msg, [])
  | Except.ok _ => delete_document delAtt defaultMaxRetries defaultRetryDelay index docId

/-! ## `ElasticsearchAutomation.run` (es_automation.py 486-535)

Configuration loading and the connection probe either succeed or raise; any
raise is caught by the surrounding `try` and turns into exit code 1.
`load_operation_files` (config_parser.py 99-175) never raises: per-file
failures are logged and skipped, and an empty directory yields an empty list,
so the loaded operations appear as a plain list.  Report writing and cleanup
are modelled as non-failing. -/

/-- The environment-config fields `run` consults after loading. -/
structure EnvConfig where
  stopOnError : Bool

/-- `ElasticsearchAutomation.run`: exit code 0 or 1. -/
def run_automation (dryRun : Bool) (envConfig : Except String EnvConfig)
    (connect : Except String Unit)
    (e : Operation → Except String JVal × List ESCall)
    (ops : List Operation) : Nat :=
  match envConfig with
  | Except.error _ => 1
  | Except.ok cfg =>
    match connect with
    | Except.error _ => 1
    | Except.ok _ =>
      let fin := execute_operations dryRun cfg.stopOnError e ops
      if 0 < fin.failed then 1 else 0

/-! ## Properties-file executor (elasticsearch-ops/executor.py)

A parsed `.properties` file is a key/value list (each key bound once);
`json.loads` is abstracted as a parameter.  `execute_operation` is embedded as
the list of network calls it issues (its return value is the raw response of
the last call, which no claim inspects); `raise ValueError(...)` becomes
`Except.error`. -/

/-- A parsed properties file. -/
abbrev PropsFile := List (String × String)

/-- Python dict lookup on a parsed properties file. -/
def getProp (props : PropsFile) (k : String) : Option String :=
  props.lookup k

/-- Python `int(...)` on a properties value: an optional sign followed by
decimal digits, anything else raises `ValueError`. -/
def pyInt (s : String) : Except String Int :=
  let signDigits : Int × List Char :=
    match s.data with
    | '-' :: rest => (-1, rest)
    | '+' :: rest => (1, rest)
    | chars => (1, chars)
  if signDigits.snd ≠ [] ∧ signDigits.snd.all Char.isDigit then
    Except.ok (signDigits.fst *
      (signDigits.snd.foldl (fun acc c => acc * 10 + (c.toNat - 48)) 0 : Nat))
  else
    Except.error ("invalid literal for int: " ++ s)

/-- Python `dict.update`: existing keys keep their position with the new
value, new keys are appended. -/
def dictUpdate (base upd : List (String × JVal)) : List (String × JVal) :=
  (base.map fun kv =>
    match upd.lookup kv.fst with
    | some v => (kv.fst, v)
    | none => kv) ++
  upd.filter (fun kv => (base.lookup kv.fst).isNone)

/-- `executor.py execute_operation` (lines 257-414), as the list of network
calls one invocation issues.  `parseJson` abstracts `json.loads` on
`inputjson` values (which the files store as JSON objects). -/
def execute_operation (cl : ClusterState)
    (parseJson : String → Except String (List (String × JVal)))
    (props : PropsFile) : Except String (List ESCall) :=
  match getProp props "operation" with
  | none => Except.error "Missing operation field in properties file"
  | some operation =>
    if operation = "create_index" then
      match getProp props "indexname" with
      | none => Except.error "Missing indexname for create_index"
      | some indexName => do
        let s1 ← match getProp props "shards" with
          | none => pure []
          | some v => do
            let n ← pyInt v
            pure [("number_of_shards", JVal.jint n)]
        let s2 ← match getProp props "replicas" with
          | none => pure []
          | some v => do
            let n ← pyInt v
            pure [("number_of_replicas", JVal.jint n)]
        let settings := s1 ++ s2
        let body0 : List (String × JVal) :=
          if settings.isEmpty then [] else [("settings", JVal.jobj settings)]
        let body ← match getProp props "inputjson" with
          | none => pure body0
          | some js => do
            let input ← parseJson js
            pure (dictUpdate body0 input)
        pure [ESCall.indicesCreate indexName (if body.isEmpty then none else some body)]
    else if operation = "delete_index" then
      match getProp props "indexname" with
      | none => Except.error "Missing indexname for delete_index"
      | some indexName =>
        if cl.indices.contains indexName then
          Except.ok [ESCall.indicesExists indexName, ESCall.indicesDelete indexName]
        else
          Except.ok [ESCall.indicesExists indexName]
    else if operation = "update_index" then
      match getProp props "indexname", getProp props "inputjson" with
      | none, _ => Except.error "Missing indexname for update_index"
      | some _, none => Except.error "Missing inputjson for update_index"
      | some indexName, some js => do
        let settings ← parseJson js
        pure [ESCall.putSettings indexName settings]
    else if operation = "create_template" then
      match getProp props "templatename", getProp props "inputjson" with
      | none, _ => Except.error "Missing templatename for create_template"
      | some _, none => Except.error "Missing inputjson for create_template"
      | some templateName, some js => do
        let body ← parseJson js
        let body :=
          match getProp props "indexpattern" with
          | some pat =>
            if (body.lookup "index_patterns").isNone then
              body ++ [("index_patterns",
                JVal.jarr (((pat.splitOn ",").map (fun p => p.trim)).map JVal.jstr))]
            else body
          | none => body
        pure [ESCall.putIndexTemplate templateName body]
    else if operation = "delete_template" then
      match getProp props "templatename" with
      | none => Except.error "Missing templatename for delete_template"
      | some templateName =>
        if cl.templates.contains templateName then
          Except.ok [ESCall.existsIndexTemplate templateName,
                     ESCall.deleteIndexTemplate templateName]
        else
          Except.ok [ESCall.existsIndexTemplate templateName]
    else if operation = "index_document" then
      match getProp props "indexname", getProp props "inputjson" with
      | none, _ => Except.error "Missing indexname for index_document"
      | some _, none => Except.error "Missing inputjson for index_document"
      | some indexName, some js => do
        let document ← parseJson js
        pure [ESCall.indexDoc indexName (getProp props "docid") document]
    else
      Except.error ("Unknown operation type: " ++ operation)

/-! ## `executor.py main` (lines 417-542) -/

/-- Stable insertion into a filename-sorted list (helper for `sorted(...)`). -/
def insertByName (x : String × PropsFile) :
    List (String × PropsFile) → List (String × PropsFile)
  | [] => [x]
  | y :: ys => if x.fst < y.fst then x :: y :: ys else y :: insertByName x ys

/-- Python `sorted` by filename (stable, ascending). -/
def sortByName : List (String × PropsFile) → List (String × PropsFile)
  | [] => []
  | x :: xs => insertByName x (sortByName xs)

/-- `find_version_operations` (executor.py 188-254) applied to the directory
listing of the resolved version folder, each file already parsed: keep the
`.properties` entries, raise when none remain, else return them sorted by
filename. -/
def find_version_operations (files : List (String × PropsFile)) :
    Except String (List (String × PropsFile)) :=
  let propFiles := files.filter (fun f => f.fst.endsWith ".properties")
  if propFiles.isEmpty then
    Except.error "No .properties files found"
  else
    Except.ok (sortByName propFiles)

/-- The environment-config field `main` consults during the loop
(`STOP_ON_ERROR`, parsed to a Bool). -/
structure ExecEnvConfig where
  stopOnError : Bool

/-- The `for i, (filepath, operation_props) in enumerate(operations)` loop of
`executor.py main` (487-509): success/failure counters with stop-on-error. -/
def executor_loop (stopOnError : Bool) (execOp : PropsFile → Except String JVal) :
    List (String × PropsFile) → Nat × Nat → Nat × Nat
  | [], acc => acc
  | (_, props) :: rest, (succ, fail) =>
    match execOp props with
    | Except.ok _ => executor_loop stopOnError execOp rest (succ + 1, fail)
    | Except.error _ =>
      if stopOnError then (succ, fail + 1)
      else executor_loop stopOnError execOp rest (succ, fail + 1)

/-- `executor.py main` (417-542): exit code 0 or 1.  Config load, connection
and operation discovery happen in that order inside one `try`; any raise exits
with code 1. -/
def executor_main (envConfig : Except String ExecEnvConfig)
    (connect : Except String Unit) (files : List (String × PropsFile))
    (execOp : PropsFile → Except String JVal) : Nat :=
  match envConfig with
  | Except.error _ => 1
  | Except.ok cfg =>
    match connect with
    | Except.error _ => 1
    | Except.ok _ =>
      match find_version_operations files with
      | Except.error _ => 1
      | Except.ok ops =>
        let res := executor_loop cfg.stopOnError execOp ops (0, 0)
        if 0 < res.snd then 1 else 0

/-! ## Helper lemmas about the retry loop -/

theorem retryFrom_calls_le (att : Nat → Except ε α) (d : Nat) :
    ∀ r k, (retryFrom att d k r).calls ≤ r := by
  intro r
  induction r with
  | zero => intro k; simp [retryFrom]
  | succ r ih =>
    intro k
    cases hk : att k with
    | ok a => simp [retryFrom, hk]
    | error e =>
      by_cases hr : r = 0
      · simp [retryFrom, hk, hr]
      · have := ih (k + 1)
        simp [retryFrom, hk, hr]
        omega

theorem retryFrom_sleeps_const (att : Nat → Except ε α) (d : Nat) :
    ∀ r k s, s ∈ (retryFrom att d k r).sleeps → s = d := by
  intro r
  induction r with
  | zero => intro k s hs; simp [retryFrom] at hs
  | succ r ih =>
    intro k s hs
    cases hk : att k with
    | ok a => simp [retryFrom, hk] at hs
    | error e =>
      by_cases hr : r = 0
      · simp [retryFrom, hk, hr] at hs
      · simp [retryFrom, hk, hr] at hs
        rcases hs with hs | hs
        · exact hs
        · exact ih (k + 1) s hs

theorem retryFrom_success (att : Nat → Except ε α) (d : Nat) (a : α) :
    ∀ t k r, t < r → att (k + t) = Except.ok a →
      (∀ j, j < t → ∃ err, att (k + j) = Except.error err) →
      (retryFrom att d k r).result = some (Except.ok a) ∧
      (retryFrom att d k r).calls = t + 1 := by
  intro t
  induction t with
  | zero =>
    intro k r hr hok _
    obtain ⟨r, rfl⟩ : ∃ r2, r = r2 + 1 := ⟨r - 1, by omega⟩
    simp at hok
    simp [retryFrom, hok]
  | succ t ih =>
    intro k r hr hok hprev
    obtain ⟨r, rfl⟩ : ∃ r2, r = r2 + 1 := ⟨r - 1, by omega⟩
    obtain ⟨err, herr⟩ := hprev 0 (Nat.succ_pos t)
    simp at herr
    have hr0 : r ≠ 0 := by omega
    have hok2 : att (k + 1 + t) = Except.ok a := by
      have : k + 1 + t = k + (t + 1) := by omega
      rw [this]; exact hok
    have hprev2 : ∀ j, j < t → ∃ e2, att (k + 1 + j) = Except.error e2 := by
      intro j hj
      have : k + 1 + j = k + (j + 1) := by omega
      rw [this]
      exact hprev (j + 1) (by omega)
    have := ih (k + 1) r (by omega) hok2 hprev2
    simp [retryFrom, herr, hr0]
    exact ⟨this.1, this.2⟩

theorem retryFrom_all_fail (att : Nat → Except ε α) (d : Nat) (e : Nat → ε) :
    ∀ r k, (∀ j, j < r + 1 → att (k + j) = Except.error (e (k + j))) →
      retryFrom att d k (r + 1) =
        ⟨some (Except.error (e (k + r))), r + 1, List.replicate r d⟩ := by
  intro r
  induction r with
  | zero =>
    intro k hall
    have hk : att k = Except.error (e k) := by simpa using hall 0 Nat.one_pos
    simp [retryFrom, hk]
  | succ r ih =>
    intro k hall
    have hk : att k = Except.error (e k) := by
      simpa using hall 0 (Nat.succ_pos _)
    have hrec := ih (k + 1) (by
      intro j hj
      have h1 : k + 1 + j = k + (j + 1) := by omega
      rw [h1]
      exact hall (j + 1) (by omega))
    have h2 : k + 1 + r = k + (r + 1) := by omega
    rw [h2] at hrec
    rw [retryFrom, hk]
    simp [hrec, List.replicate_succ]

/-! ## Helper lemmas about the dispatcher loop -/

theorem exec_loop_total (dr so : Bool) (e : Operation → Except String JVal × List ESCall)
    (l : List Operation) (st : RunState) : (exec_loop dr so e l st).total = st.total := by
  induction l generalizing st with
  | nil => rfl
  | cons op rest ih =>
    cases dr with
    | true => simp [exec_loop, ih]
    | false =>
      cases he : e op with
      | mk o cs =>
        cases o with
        | ok r => simp [exec_loop, he, ih]
        | error err =>
          cases so with
          | false => simp [exec_loop, he, ih]
          | true => simp [exec_loop, he]

theorem exec_loop_skipped (dr so : Bool) (e : Operation → Except String JVal × List ESCall)
    (l : List Operation) (st : RunState) : (exec_loop dr so e l st).skipped = st.skipped := by
  induction l generalizing st with
  | nil => rfl
  | cons op rest ih =>
    cases dr with
    | true => simp [exec_loop, ih]
    | false =>
      cases he : e op with
      | mk o cs =>
        cases o with
        | ok r => simp [exec_loop, he, ih]
        | error err =>
          cases so with
          | false => simp [exec_loop, he, ih]
          | true => simp [exec_loop, he]

theorem exec_loop_sum_le (dr so : Bool) (e : Operation → Except String JVal × List ESCall)
    (l : List Operation) (st : RunState) :
    (exec_loop dr so e l st).successful + (exec_loop dr so e l st).failed ≤
      st.successful + st.failed + l.length := by
  induction l generalizing st with
  | nil => simp [exec_loop]
  | cons op rest ih =>
    cases dr with
    | true =>
      simp only [exec_loop, if_true, List.length_cons]
      exact le_trans (ih _) (by simp; omega)
    | false =>
      cases he : e op with
      | mk o cs =>
        cases o with
        | ok r =>
          simp only [exec_loop, he, Bool.false_eq_true, if_false, List.length_cons]
          exact le_trans (ih _) (by simp; omega)
        | error err =>
          cases so with
          | false =>
            simp only [exec_loop, he, Bool.false_eq_true, if_false, List.length_cons]
            exact le_trans (ih _) (by simp; omega)
          | true =>
            simp only [exec_loop, he, Bool.false_eq_true, if_false, if_true, List.length_cons]
            omega

theorem exec_loop_sum_eq (dr : Bool) (e : Operation → Except String JVal × List ESCall)
    (l : List Operation) (st : RunState) :
    (exec_loop dr false e l st).successful + (exec_loop dr false e l st).failed =
      st.successful + st.failed + l.length := by
  induction l generalizing st with
  | nil => simp [exec_loop]
  | cons op rest ih =>
    cases dr with
    | true =>
      simp only [exec_loop, if_true, List.length_cons]
      rw [ih]
      simp
      omega
    | false =>
      cases he : e op with
      | mk o cs =>
        cases o with
        | ok r =>
          simp only [exec_loop, he, Bool.false_eq_true, if_false, List.length_cons]
          rw [ih]
          simp
          omega
        | error err =>
          simp only [exec_loop, he, Bool.false_eq_true, if_false, List.length_cons]
          rw [ih]
          simp
          omega

theorem exec_loop_dry (so : Bool) (e : Operation → Except String JVal × List ESCall)
    (l : List Operation) (st : RunState) :
    exec_loop true so e l st =
      { st with successful := st.successful + l.length,
                executed := st.executed + l.length,
                results := st.results ++
                  l.map (fun op => success_record op (simulate_operation op)) } := by
  induction l generalizing st with
  | nil => simp [exec_loop]
  | cons op rest ih =>
    cases st with
    | mk a b c t res cal ex =>
      simp [exec_loop, ih, List.append_assoc]
      omega

theorem exec_loop_status (dr so : Bool) (e : Operation → Except String JVal × List ESCall)
    (l : List Operation) (st : RunState) :
    ∀ rec ∈ (exec_loop dr so e l st).results,
      rec ∈ st.results ∨ rec.status = "success" ∨ rec.status = "failed" := by
  induction l generalizing st with
  | nil => intro rec h; exact Or.inl h
  | cons op rest ih =>
    intro rec h
    cases dr with
    | true =>
      simp only [exec_loop, if_true] at h
      rcases ih _ rec h with h1 | h2
      · simp at h1
        rcases h1 with h1 | h1
        · exact Or.inl h1
        · subst h1
          exact Or.inr (Or.inl rfl)
      · exact Or.inr h2
    | false =>
      cases he : e op with
      | mk o cs =>
        cases o with
        | ok r =>
          simp only [exec_loop, he, Bool.false_eq_true, if_false] at h
          rcases ih _ rec h with h1 | h2
          · simp at h1
            rcases h1 with h1 | h1
            · exact Or.inl h1
            · subst h1
              exact Or.inr (Or.inl rfl)
          · exact Or.inr h2
        | error err =>
          cases so with
          | false =>
            simp only [exec_loop, he, Bool.false_eq_true, if_false] at h
            rcases ih _ rec h with h1 | h2
            · simp at h1
              rcases h1 with h1 | h1
              · exact Or.inl h1
              · subst h1
                exact Or.inr (Or.inr rfl)
            · exact Or.inr h2
          | true =>
            simp only [exec_loop, he, Bool.false_eq_true, if_false, if_true] at h
            simp at h
            rcases h with h1 | h1
            · exact Or.inl h1
            · subst h1
              exact Or.inr (Or.inr rfl)

/-- The value a successful `_execute_operation` outcome carries
(`JVal.jnull` is unreachable filler for the error case). -/
def okValueD (x : Except String JVal) : JVal :=
  match x with
  | Except.ok r => r
  | Except.error _ => JVal.jnull

theorem exec_loop_all_ok_head (so : Bool) (e : Operation → Except String JVal × List ESCall) :
    ∀ (pre : List Operation) (st : RunState),
      (∀ p ∈ pre, ∃ r, (e p).fst = Except.ok r) →
      ∀ rest, exec_loop false so e (pre ++ rest) st =
        exec_loop false so e rest
          { st with successful := st.successful + pre.length,
                    executed := st.executed + pre.length,
                    results := st.results ++
                      pre.map (fun p => success_record p (okValueD (e p).fst)),
                    calls := st.calls ++ (pre.map (fun p => (e p).snd)).flatten } := by
  intro pre
  induction pre with
  | nil => intro st _ rest; cases st; simp
  | cons p pre ih =>
    intro st h rest
    obtain ⟨r, hr⟩ := h p (List.mem_cons_self p pre)
    cases hep : e p with
    | mk o cs =>
      rw [hep] at hr
      simp at hr
      subst hr
      rw [List.cons_append]
      simp only [exec_loop, hep, Bool.false_eq_true, if_false]
      rw [ih _ (fun q hq => h q (List.mem_cons_of_mem p hq)) rest]
      cases st with
      | mk a b c t res cal ex =>
        simp [List.append_assoc, hep, okValueD]
        rw [show a + 1 + pre.length = a + (pre.length + 1) by omega,
            show ex + 1 + pre.length = ex + (pre.length + 1) by omega]

/-! ## Helper lemmas about the forbidden-character scan -/

theorem firstInvalidChar_none (s : String) :
    ∀ cs : List Char, firstInvalidChar s cs = none ↔ ∀ c ∈ cs, c ∉ s.data := by
  intro cs
  induction cs with
  | nil => simp [firstInvalidChar]
  | cons c rest ih =>
    by_cases h : c ∈ s.data
    · simp [firstInvalidChar, h]
    · simp [firstInvalidChar, h, ih]

theorem firstInvalidChar_some (s : String) :
    ∀ (cs : List Char) (c : Char), firstInvalidChar s cs = some c →
      c ∈ cs ∧ c ∈ s.data := by
  intro cs
  induction cs with
  | nil => intro c h; simp [firstInvalidChar] at h
  | cons c0 rest ih =>
    intro c h
    by_cases hm : c0 ∈ s.data
    · simp [firstInvalidChar, hm] at h
      subst h
      exact ⟨List.mem_cons_self c0 rest, hm⟩
    · simp [firstInvalidChar, hm] at h
      obtain ⟨h1, h2⟩ := ih c h
      exact ⟨List.mem_cons_of_mem c0 h1, h2⟩

/-! ## Claims -/

/-- Claim C5: `_retry_operation` invokes the wrapped operation at most
`max_retries` times, sleeps a fixed `retry_delay` between consecutive attempts
with no backoff growth, returns the first successful result without further
attempts, and when all `max_retries` attempts raise it propagates the last
attempt's exception unchanged, regardless of the exception type. -/
theorem C5_retry_policy {ε α : Type} (m d : Nat) (att : Nat → Except ε α) :
    (retry_operation m d att).calls ≤ m ∧
    (∀ s ∈ (retry_operation m d att).sleeps, s = d) ∧
    (∀ k a, k < m → att k = Except.ok a →
      (∀ j, j < k → ∃ err, att j = Except.error err) →
      (retry_operation m d att).result = some (Except.ok a) ∧
      (retry_operation m d att).calls = k + 1) ∧
    (∀ f : Nat → ε, 0 < m → (∀ i, i < m → att i = Except.error (f i)) →
      (retry_operation m d att).result = some (Except.error (f (m - 1))) ∧
      (retry_operation m d att).calls = m) := by
  refine ⟨retryFrom_calls_le att d m 0,
          fun s hs => retryFrom_sleeps_const att d m 0 s hs, ?_, ?_⟩
  · intro k a hk hok hprev
    have h := retryFrom_success att d a k 0 m hk (by simpa using hok)
      (by intro j hj; simpa using hprev j hj)
    exact h
  · intro f hm hall
    have hm1 : m - 1 + 1 = m := by omega
    have h := retryFrom_all_fail att d f (m - 1) 0 (by
      intro j hj
      simp only [Nat.zero_add]
      exact hall j (by omega))
    rw [hm1] at h
    unfold retry_operation
    rw [h]
    simp

/-- Witness for C5 at a concrete input: three allowed attempts, the first
fails, the second succeeds; the helper returns the second attempt's result
after exactly two invocations. -/
theorem C5_retry_policy_witness :
    (retry_operation 3 2 (fun i => if i = 1 then Except.ok (5 : Nat)
        else Except.error "boom")).result = some (Except.ok 5) ∧
    (retry_operation 3 2 (fun i => if i = 1 then Except.ok (5 : Nat)
        else Except.error "boom")).calls = 2 := by
  have h := (C5_retry_policy 3 2 (fun i => if i = 1 then Except.ok (5 : Nat)
    else Except.error "boom")).2.2.1
  exact h 1 5 (by omega) (by simp) (by
    intro j hj
    have hj0 : j = 0 := by omega
    subst hj0
    exact ⟨"boom", by simp⟩)

/-- Claim C6: `validate_index_name` returns `True` exactly for the non-empty,
at most 255-byte, non-dot, non-reserved-prefix, lowercase strings free of the
forbidden characters; on any violating string it raises an error whose message
names a violated rule. -/
theorem C6_validate_index_name (s : String) :
    (validate_index_name s = Except.ok true ↔ ValidIndexName s) ∧
    (∀ msg, validate_index_name s = Except.error msg → msg ∈ violatedMessages s) := by
  constructor
  · unfold validate_index_name
    by_cases h1 : s.length = 0
    · simp only [h1, if_true, ite_true]
      exact iff_of_false (by simp) (fun hv => hv.nonempty h1)
    · by_cases h2 : s.utf8ByteSize > 255
      · simp only [h1, h2, if_true, if_false, ite_true, ite_false]
        exact iff_of_false (by simp) (fun hv => absurd hv.byteSize (by omega))
      · by_cases h3 : s = "." ∨ s = ".."
        · simp only [h1, h2, h3, if_true, if_false, ite_true, ite_false]
          exact iff_of_false (by simp) (fun hv => by
            rcases h3 with h3 | h3
            · exact hv.notDot h3
            · exact hv.notDotDot h3)
        · by_cases h4 : s.front = '-' ∨ s.front = '_' ∨ s.front = '+'
          · simp only [h1, h2, h3, h4, if_true, if_false, ite_true, ite_false]
            exact iff_of_false (by simp) (fun hv => hv.goodStart h4)
          · by_cases h5 : s.data.any (fun c => c.isAlpha && c.isUpper) = true
            · simp only [h1, h2, h3, h4, h5, if_true, if_false, ite_true, ite_false]
              exact iff_of_false (by simp) (fun hv => by
                rw [hv.lower] at h5
                exact Bool.false_ne_true h5)
            · simp only [h1, h2, h3, h4, h5, if_true, if_false, ite_true, ite_false]
              cases hfc : firstInvalidChar s invalidIndexChars with
              | some c =>
                exact iff_of_false (by simp) (fun hv => by
                  obtain ⟨hc1, hc2⟩ := firstInvalidChar_some s invalidIndexChars c hfc
                  exact hv.noForbidden c hc1 hc2)
              | none =>
                refine iff_of_true rfl ⟨h1, by omega, fun h => h3 (Or.inl h),
                  fun h => h3 (Or.inr h), h4, by simpa using h5,
                  (firstInvalidChar_none s invalidIndexChars).mp hfc⟩
  · intro msg
    unfold validate_index_name
    by_cases h1 : s.length = 0
    · intro h
      simp only [h1, if_true, ite_true] at h
      simp only [Except.error.injEq] at h
      simp [violatedMessages, h1, ← h]
    · by_cases h2 : s.utf8ByteSize > 255
      · intro h
        simp only [h1, h2, if_true, if_false, ite_true, ite_false] at h
        simp only [Except.error.injEq] at h
        simp [violatedMessages, h2, ← h]
      · by_cases h3 : s = "." ∨ s = ".."
        · intro h
          simp only [h1, h2, h3, if_true, if_false, ite_true, ite_false] at h
          simp only [Except.error.injEq] at h
          simp [violatedMessages, h3, ← h]
        · by_cases h4 : s.front = '-' ∨ s.front = '_' ∨ s.front = '+'
          · intro h
            simp only [h1, h2, h3, h4, if_true, if_false, ite_true, ite_false] at h
            simp only [Except.error.injEq] at h
            simp [violatedMessages, h4, ← h]
          · by_cases h5 : s.data.any (fun c => c.isAlpha && c.isUpper) = true
            · intro h
              simp only [h1, h2, h3, h4, h5, if_true, if_false, ite_true, ite_false] at h
              simp only [Except.error.injEq] at h
              simp [violatedMessages, h5, ← h]
            · intro h
              simp only [h1, h2, h3, h4, h5, if_true, if_false, ite_true, ite_false] at h
              cases hfc : firstInvalidChar s invalidIndexChars with
              | none => rw [hfc] at h; simp at h
              | some c =>
                rw [hfc] at h
                simp only [Bool.false_eq_true, if_false, Except.error.injEq] at h
                obtain ⟨hc1, hc2⟩ := firstInvalidChar_some s invalidIndexChars c hfc
                simp [violatedMessages, h1, h2, h3, h4, h5]
                exact ⟨c, ⟨hc1, hc2⟩, h⟩

/-- Witness for C6 at concrete inputs: a valid name is accepted, and the
error for an uppercase name names the lowercase rule. -/
theorem C6_validate_index_name_witness :
    validate_index_name "logs-v1" = Except.ok true ∧
    "Index name must be lowercase" ∈ violatedMessages "LOGS" := by
  constructor
  · exact (C6_validate_index_name "logs-v1").1.mpr
      ⟨by decide, by decide, by decide, by decide, by decide, by decide, by decide⟩
  · exact (C6_validate_index_name "LOGS").2 "Index name must be lowercase" rfl

/-- Claim C1: for an index (resp. template) name whose existence check reports
it absent, `delete_index` / `delete_index_template` never raise: they return
the synthetic acknowledged + not-found result without issuing the delete call,
and the dispatcher records the operation as a success, incrementing the
success counter and not the failure counter. -/
theorem C1_delete_missing_succeeds (cl : ClusterState)
    (delAttI delAttT : Nat → Except String JVal) (iname tname : String)
    (so : Bool) (fi ft : String)
    (hi : cl.indices.contains iname = false)
    (ht : cl.templates.contains tname = false)
    (hv : validate_index_name iname = Except.ok true) :
    delete_index cl delAttI defaultMaxRetries defaultRetryDelay iname =
      (Except.ok notFoundIndexResult, [ESCall.indicesExists iname]) ∧
    delete_index_template cl delAttT defaultMaxRetries defaultRetryDelay tname =
      (Except.ok notFoundTemplateResult, [ESCall.existsIndexTemplate tname]) ∧
    (execute_operations false so (fun _ => dispatch_delete_index cl delAttI iname)
        [⟨"delete_index", fi⟩]).successful = 1 ∧
    (execute_operations false so (fun _ => dispatch_delete_index cl delAttI iname)
        [⟨"delete_index", fi⟩]).failed = 0 ∧
    (execute_operations false so (fun _ => dispatch_delete_index cl delAttI iname)
        [⟨"delete_index", fi⟩]).results =
      [success_record ⟨"delete_index", fi⟩ notFoundIndexResult] ∧
    (execute_operations false so (fun _ => dispatch_delete_index cl delAttI iname)
        [⟨"delete_index", fi⟩]).calls = [ESCall.indicesExists iname] ∧
    (execute_operations false so
        (fun _ => dispatch_delete_index_template cl delAttT tname)
        [⟨"delete_index_template", ft⟩]).successful = 1 ∧
    (execute_operations false so
        (fun _ => dispatch_delete_index_template cl delAttT tname)
        [⟨"delete_index_template", ft⟩]).failed = 0 ∧
    (execute_operations false so
        (fun _ => dispatch_delete_index_template cl delAttT tname)
        [⟨"delete_index_template", ft⟩]).results =
      [success_record ⟨"delete_index_template", ft⟩ notFoundTemplateResult] ∧
    (execute_operations false so
        (fun _ => dispatch_delete_index_template cl delAttT tname)
        [⟨"delete_index_template", ft⟩]).calls = [ESCall.existsIndexTemplate tname] := by
  have hdi : delete_index cl delAttI defaultMaxRetries defaultRetryDelay iname =
      (Except.ok notFoundIndexResult, [ESCall.indicesExists iname]) := by
    unfold delete_index
    rw [hi]
    simp
  have hdt : delete_index_template cl delAttT defaultMaxRetries defaultRetryDelay tname =
      (Except.ok notFoundTemplateResult, [ESCall.existsIndexTemplate tname]) := by
    unfold delete_index_template
    rw [ht]
    simp
  have hop : dispatch_delete_index cl delAttI iname =
      (Except.ok notFoundIndexResult, [ESCall.indicesExists iname]) := by
    simp [dispatch_delete_index, hv, hdi]
  have hopt : dispatch_delete_index_template cl delAttT tname =
      (Except.ok notFoundTemplateResult, [ESCall.existsIndexTemplate tname]) := by
    simp [dispatch_delete_index_template, hdt]
  refine ⟨hdi, hdt, ?_, ?_, ?_, ?_, ?_, ?_, ?_, ?_⟩ <;>
    simp [execute_operations, exec_loop, hop, hopt, initState]

/-- Witness for C1: empty cluster, absent index and template names; the
client returns the synthetic results and the single-operation run counts one
success and zero failures for each. -/
theorem C1_delete_missing_succeeds_witness :
    delete_index ⟨[], []⟩ (fun _ => Except.error "x") defaultMaxRetries
      defaultRetryDelay "ghost-index" =
      (Except.ok notFoundIndexResult, [ESCall.indicesExists "ghost-index"]) ∧
    (execute_operations false false
        (fun _ => dispatch_delete_index ⟨[], []⟩ (fun _ => Except.error "x") "ghost-index")
        [⟨"delete_index", "a.yml"⟩]).successful = 1 := by
  have h := C1_delete_missing_succeeds ⟨[], []⟩ (fun _ => Except.error "x")
    (fun _ => Except.error "x") "ghost-index" "ghost-template" false "a.yml" "b.yml"
    rfl rfl rfl
  exact ⟨h.1, h.2.2.1⟩

/-- Claim C2: with `stop_on_error` true, if the operations before position k
all succeed and the k-th fails, the run records exactly the first k
operations (the k-th as failed) and executes nothing after it. -/
theorem C2_stop_on_error (e : Operation → Except String JVal × List ESCall)
    (pre post : List Operation) (op : Operation) (err : String) (cs : List ESCall)
    (hpre : ∀ p ∈ pre, ∃ r, (e p).fst = Except.ok r)
    (hop : e op = (Except.error err, cs)) :
    (execute_operations false true e (pre ++ op :: post)).executed = pre.length + 1 ∧
    (execute_operations false true e (pre ++ op :: post)).results =
      pre.map (fun p => success_record p (okValueD (e p).fst)) ++
        [failure_record op err] ∧
    (execute_operations false true e (pre ++ op :: post)).successful = pre.length ∧
    (execute_operations false true e (pre ++ op :: post)).failed = 1 ∧
    (execute_operations false true e (pre ++ op :: post)).total =
      pre.length + 1 + post.length := by
  unfold execute_operations
  rw [exec_loop_all_ok_head true e pre (initState (pre ++ op :: post).length) hpre (op :: post)]
  simp [exec_loop, hop, initState, List.length_append]
  omega

/-- Witness for C2: one succeeding operation, then a failing one, then one
more that must not run: two operations executed, one success, one failure. -/
theorem C2_stop_on_error_witness :
    (execute_operations false true
        (fun o => if o.fileName = "b" then (Except.error "boom", []) else (Except.ok JVal.jnull, []))
        ([⟨"create_index", "a"⟩] ++ ⟨"delete_index", "b"⟩ :: [⟨"create_index", "c"⟩])).executed = 2 ∧
    (execute_operations false true
        (fun o => if o.fileName = "b" then (Except.error "boom", []) else (Except.ok JVal.jnull, []))
        ([⟨"create_index", "a"⟩] ++ ⟨"delete_index", "b"⟩ :: [⟨"create_index", "c"⟩])).failed = 1 := by
  have h := C2_stop_on_error
    (fun o => if o.fileName = "b" then (Except.error "boom", []) else (Except.ok JVal.jnull, []))
    [⟨"create_index", "a"⟩] [⟨"create_index", "c"⟩] ⟨"delete_index", "b"⟩ "boom" []
    (by
      intro p hp
      rw [List.mem_singleton] at hp
      subst hp
      exact ⟨JVal.jnull, rfl⟩)
    (by simp)
  exact ⟨h.1, h.2.2.2.1⟩

/-- Claim C3: after every run, successful + failed ≤ total, with equality when
`stop_on_error` is false; total is the number of loaded operations. -/
theorem C3_stats_invariant (dr so : Bool)
    (e : Operation → Except String JVal × List ESCall) (ops : List Operation) :
    (execute_operations dr so e ops).successful + (execute_operations dr so e ops).failed ≤
      (execute_operations dr so e ops).total ∧
    (so = false →
      (execute_operations dr so e ops).successful +
        (execute_operations dr so e ops).failed =
          (execute_operations dr so e ops).total) := by
  constructor
  · have h1 := exec_loop_sum_le dr so e ops (initState ops.length)
    have h2 := exec_loop_total dr so e ops (initState ops.length)
    unfold execute_operations
    simp [initState] at h1 h2 ⊢
    omega
  · intro hso
    subst hso
    have h1 := exec_loop_sum_eq dr e ops (initState ops.length)
    have h2 := exec_loop_total dr false e ops (initState ops.length)
    unfold execute_operations
    simp [initState] at h1 h2 ⊢
    omega

/-- Witness for C3: a concrete two-operation run without stop-on-error has
successful + failed equal to total. -/
theorem C3_stats_invariant_witness :
    (execute_operations false false (fun _ => (Except.error "x", []))
        [⟨"create_index", "a"⟩, ⟨"delete_index", "b"⟩]).successful +
      (execute_operations false false (fun _ => (Except.error "x", []))
        [⟨"create_index", "a"⟩, ⟨"delete_index", "b"⟩]).failed =
      (execute_operations false false (fun _ => (Except.error "x", []))
        [⟨"create_index", "a"⟩, ⟨"delete_index", "b"⟩]).total :=
  (C3_stats_invariant false false (fun _ => (Except.error "x", []))
    [⟨"create_index", "a"⟩, ⟨"delete_index", "b"⟩]).2 rfl

/-- Claim C4: in dry-run mode no network call is issued; every operation is
short-circuited to the synthetic simulated result, counted as successful, and
after the run failed = 0 and successful = total. -/
theorem C4_dry_run (so : Bool) (e : Operation → Except String JVal × List ESCall)
    (ops : List Operation) :
    (execute_operations true so e ops).calls = [] ∧
    (execute_operations true so e ops).failed = 0 ∧
    (execute_operations true so e ops).skipped = 0 ∧
    (execute_operations true so e ops).successful = ops.length ∧
    (execute_operations true so e ops).total = ops.length ∧
    (execute_operations true so e ops).results =
      ops.map (fun op => success_record op (simulate_operation op)) := by
  have h := exec_loop_dry so e ops (initState ops.length)
  unfold execute_operations
  rw [h]
  simp [initState]

/-- Claim C9: `delete_document` performs no existence check — every call it
issues is the document delete itself; with all three default attempts failing
the last error propagates unchanged and the dispatcher records a failure. -/
theorem C9_delete_document_propagates (delAtt : Nat → Except String JVal)
    (f : Nat → String) (index docId fn : String) (so : Bool)
    (hall : ∀ i, i < 3 → delAtt i = Except.error (f i))
    (hv : validate_index_name index = Except.ok true) :
    delete_document delAtt defaultMaxRetries defaultRetryDelay index docId =
      (Except.error (f 2), List.replicate 3 (ESCall.deleteDoc index docId)) ∧
    (∀ m d c, c ∈ (delete_document delAtt m d index docId).snd →
      c = ESCall.deleteDoc index docId) ∧
    (execute_operations false so
        (fun _ => dispatch_delete_document delAtt index docId)
        [⟨"delete_document", fn⟩]).failed = 1 ∧
    (execute_operations false so
        (fun _ => dispatch_delete_document delAtt index docId)
        [⟨"delete_document", fn⟩]).successful = 0 ∧
    (execute_operations false so
        (fun _ => dispatch_delete_document delAtt index docId)
        [⟨"delete_document", fn⟩]).results =
      [failure_record ⟨"delete_document", fn⟩ (f 2)] := by
  have hretry : retry_operation defaultMaxRetries defaultRetryDelay delAtt =
      ⟨some (Except.error (f 2)), 3, List.replicate 2 2⟩ := by
    have h := retryFrom_all_fail delAtt 2 f 2 0 (by
      intro j hj
      simp only [Nat.zero_add]
      exact hall j hj)
    unfold retry_operation defaultMaxRetries defaultRetryDelay
    simpa using h
  have hdd : delete_document delAtt defaultMaxRetries defaultRetryDelay index docId =
      (Except.error (f 2), List.replicate 3 (ESCall.deleteDoc index docId)) := by
    simp [delete_document, hretry]
  have hop : dispatch_delete_document delAtt index docId =
      (Except.error (f 2), List.replicate 3 (ESCall.deleteDoc index docId)) := by
    simp [dispatch_delete_document, hv, hdd]
  refine ⟨hdd, ?_, ?_, ?_, ?_⟩
  · intro m d c hc
    simp [delete_document] at hc
    exact hc.2
  all_goals simp [execute_operations, exec_loop, hop, initState]

/-- Witness for C9: a concrete document delete whose underlying call always
fails propagates the last attempt's error and is recorded as a failure. -/
theorem C9_delete_document_propagates_witness :
    delete_document (fun i => Except.error ("err" ++ toString i)) defaultMaxRetries
      defaultRetryDelay "logs" "doc1" =
      (Except.error "err2", List.replicate 3 (ESCall.deleteDoc "logs" "doc1")) ∧
    (execute_operations false false
        (fun _ => dispatch_delete_document (fun i => Except.error ("err" ++ toString i)) "logs" "doc1")
        [⟨"delete_document", "d.yml"⟩]).failed = 1 := by
  have h := C9_delete_document_propagates (fun i => Except.error ("err" ++ toString i))
    (fun i => "err" ++ toString i) "logs" "doc1" "d.yml" false
    (fun i _ => rfl) rfl
  exact ⟨h.1, h.2.2.1⟩

/-- Claim C10: the skipped counter starts at 0 and is never incremented, the
report therefore shows skipped = 0, and every record's status is either
success or failed — never skipped. -/
theorem C10_skipped_zero (dr so : Bool)
    (e : Operation → Except String JVal × List ESCall) (ops : List Operation)
    (env : String) :
    (execute_operations dr so e ops).skipped = 0 ∧
    (generate_report env (execute_operations dr so e ops)).statistics.skipped = 0 ∧
    (∀ rec ∈ (execute_operations dr so e ops).results,
      rec.status = "success" ∨ rec.status = "failed") := by
  have h1 := exec_loop_skipped dr so e ops (initState ops.length)
  have h2 : (execute_operations dr so e ops).skipped = 0 := by
    unfold execute_operations
    rw [h1]
    rfl
  refine ⟨h2, ?_, ?_⟩
  · simp [generate_report, RunState.stats, h2]
  · intro rec hrec
    have h := exec_loop_status dr so e ops (initState ops.length) rec hrec
    rcases h with h | h
    · simp [initState] at h
    · exact h

/-- Witness for C10: a concrete run (one success, one failure) has skipped = 0
in the state and the report. -/
theorem C10_skipped_zero_witness :
    (execute_operations false false (fun _ => (Except.ok JVal.jnull, []))
        [⟨"create_index", "a"⟩]).skipped = 0 ∧
    (generate_report "dev" (execute_operations false false
        (fun _ => (Except.ok JVal.jnull, [])) [⟨"create_index", "a"⟩])).statistics.skipped = 0 := by
  have h := C10_skipped_zero false false (fun _ => (Except.ok JVal.jnull, []))
    [⟨"create_index", "a"⟩] "dev"
  exact ⟨h.1, h.2.1⟩

/-- The operation file of the concrete create-index scenario:
`operation=create_index, indexname=my-index, shards=3, replicas=1`. -/
def scenarioProps : PropsFile :=
  [("operation", "create_index"), ("indexname", "my-index"),
   ("shards", "3"), ("replicas", "1")]

/-- Claim C8: on that file, `execute_operation` issues exactly one
create-index call for `my-index` whose body holds settings
`number_of_shards = 3, number_of_replicas = 1` (string values converted to
integers) and contains no mappings. -/
theorem C8_create_index_scenario (cl : ClusterState)
    (parseJson : String → Except String (List (String × JVal))) :
    execute_operation cl parseJson scenarioProps =
      Except.ok [ESCall.indicesCreate "my-index"
        (some [("settings", JVal.jobj [("number_of_shards", JVal.jint 3),
                                       ("number_of_replicas", JVal.jint 1)])])] ∧
    List.lookup "mappings"
        [("settings", JVal.jobj [("number_of_shards", JVal.jint 3),
                                 ("number_of_replicas", JVal.jint 1)])] = none := by
  constructor
  · rfl
  · rfl

/-- Counterexample for C7 as stated: in the YAML automation, a run with a
valid environment config, a successful connection and **no operation files
found** (the loader returns an empty list rather than raising) exits with
code 0, not 1. -/
theorem C7_exit_code_counterexample :
    run_automation false (Except.ok ⟨false⟩) (Except.ok ())
      (fun _ => (Except.ok JVal.jnull, [])) [] = 0 := rfl

/-- Claim C7 (amended): the exit code is 0 iff no executed operation failed
and no fatal setup error occurred; missing environment config and connection
failure are fatal in both entry points, while "no operation files found" is
fatal only in the properties executor — the YAML automation treats an empty
operation list as a successful (exit 0) run. -/
theorem C7_exit_codes (dryRun : Bool) (cfg : EnvConfig) (msg : String)
    (e : Operation → Except String JVal × List ESCall) (ops : List Operation)
    (cfg2 : ExecEnvConfig) (files : List (String × PropsFile))
    (execOp : PropsFile → Except String JVal) :
    run_automation dryRun (Except.error msg) (Except.ok ()) e ops = 1 ∧
    run_automation dryRun (Except.ok cfg) (Except.error msg) e ops = 1 ∧
    (run_automation dryRun (Except.ok cfg) (Except.ok ()) e ops = 0 ↔
      (execute_operations dryRun cfg.stopOnError e ops).failed = 0) ∧
    executor_main (Except.error msg) (Except.ok ()) files execOp = 1 ∧
    executor_main (Except.ok cfg2) (Except.error msg) files execOp = 1 ∧
    ((files.filter (fun f => f.fst.endsWith ".properties")).isEmpty = true →
      executor_main (Except.ok cfg2) (Except.ok ()) files execOp = 1) ∧
    ((files.filter (fun f => f.fst.endsWith ".properties")).isEmpty = false →
      (executor_main (Except.ok cfg2) (Except.ok ()) files execOp = 0 ↔
        (executor_loop cfg2.stopOnError execOp
          (sortByName (files.filter (fun f => f.fst.endsWith ".properties")))
          (0, 0)).snd = 0)) := by
  refine ⟨rfl, rfl, ?_, rfl, rfl, ?_, ?_⟩
  · unfold run_automation
    by_cases h : (execute_operations dryRun cfg.stopOnError e ops).failed = 0
    · simp [h]
    · have h0 : 0 < (execute_operations dryRun cfg.stopOnError e ops).failed := by omega
      simp [h0, h]
  · intro hempty
    simp [executor_main, find_version_operations, hempty]
  · intro hne
    unfold executor_main find_version_operations
    simp only [hne, Bool.false_eq_true, if_false]
    by_cases h : (executor_loop cfg2.stopOnError execOp
        (sortByName (files.filter (fun f => f.fst.endsWith ".properties"))) (0, 0)).snd = 0
    · simp [h]
    · have h0 : 0 < (executor_loop cfg2.stopOnError execOp
          (sortByName (files.filter (fun f => f.fst.endsWith ".properties"))) (0, 0)).snd := by
        omega
      simp [h0, h]

/-- Witness for the amended C7: the properties executor with a listing that
contains no `.properties` file exits 1, and a YAML run whose single operation
succeeds exits 0. -/
theorem C7_exit_codes_witness :
    executor_main (Except.ok ⟨false⟩) (Except.ok ()) [("readme.md", [])]
      (fun _ => Except.ok JVal.jnull) = 1 ∧
    run_automation false (Except.ok ⟨false⟩) (Except.ok ())
      (fun _ => (Except.ok JVal.jnull, [])) [⟨"create_index", "a.yml"⟩] = 0 := by
  have h := C7_exit_codes false ⟨false⟩ "m" (fun _ => (Except.ok JVal.jnull, []))
    [⟨"create_index", "a.yml"⟩] ⟨false⟩ [("readme.md", [])]
    (fun _ => Except.ok JVal.jnull)
  exact ⟨h.2.2.2.2.2.1 rfl, h.2.2.1.mpr rfl⟩
